import Mathlib

/-!
Shallow embedding of the firmware artifact-copy scripts of the
ESP32-WeatherStation-Boat repository:

* `scripts/copy_firmware.py` — the standalone variant: `copy_firmware_files`
  copies `firmware.bin` and `spiffs.bin` from the PlatformIO build directory
  to the `firmware/` folder, returns the success count, and the `__main__`
  block exits with status 0 iff at least one file was copied.
* `firmware/copy_firmware.py` — the PlatformIO post-build variant: the same
  copy loop, but the function has no `return` statement (it returns `None`).

The filesystem is modelled as explicit state: a list of existing directories
and an association list from paths to byte contents.  `shutil.copy2` I/O
errors (permissions, disk full, ...) are modelled by a fault oracle on the
source path; the `try`/`except` around each artifact is the `match` on the
`Except` result of `copy2`.
-/

namespace CopyFirmware

/-- File contents: a sequence of bytes (modelled as naturals). -/
abbrev Bytes := List Nat

/-- Filesystem state: the set of existing directories and a map from file
paths to their contents, as an association list (head entry wins). -/
structure FS where
  dirs : List String
  files : List (String × Bytes)
deriving DecidableEq

/-- `Path.exists()` on a file path. -/
def FS.existsFile (fs : FS) (p : String) : Bool :=
  (fs.files.lookup p).isSome

/-- Read the contents of a file, `none` when absent. -/
def FS.read (fs : FS) (p : String) : Option Bytes :=
  fs.files.lookup p

/-- Write (create or overwrite) the file at `p` with contents `c`. -/
def FS.write (fs : FS) (p : String) (c : Bytes) : FS :=
  { fs with files := (p, c) :: fs.files.filter (fun e => !(e.1 == p)) }

/-- `pathlib`'s `/` operator: join two path components. -/
def pathJoin (a b : String) : String := a ++ "/" ++ b

/-- The fatal error of the run: the destination directory cannot be created
because the project root does not exist (`firmware_dir.mkdir(exist_ok=True)`
raising `FileNotFoundError`; the spec's `ConfigurationError`). -/
inductive RunError
  | ConfigurationError
deriving DecidableEq

/-- `firmware_dir.mkdir(exist_ok=True)`: succeeds (without change) when the
directory already exists, creates it when its parent exists, and raises
otherwise. -/
def mkdir_exist_ok (fs : FS) (parent dir : String) : Except RunError FS :=
  if fs.dirs.contains dir then .ok fs
  else if fs.dirs.contains parent then .ok { fs with dirs := dir :: fs.dirs }
  else .error .ConfigurationError

/-- One entry of the `files_to_copy` list: the dicts with keys
`"source"`, `"dest"`, `"name"`. -/
structure FileInfo where
  source : String
  dest : String
  name : String
deriving DecidableEq

/-- The `files_to_copy` list of the standalone script, given the computed
build and firmware directories. -/
def files_to_copy (build_dir firmware_dir : String) : List FileInfo :=
  [ { source := pathJoin build_dir "firmware.bin"
    , dest := pathJoin firmware_dir "firmware.bin"
    , name := "Main firmware" }
  , { source := pathJoin build_dir "spiffs.bin"
    , dest := pathJoin firmware_dir "spiffs.bin"
    , name := "SPIFFS filesystem" } ]

/-- The per-artifact report line: copied with its byte size, skipped because
the source is missing, or errored inside the `except` handler. -/
inductive Outcome
  | copied (size : Nat)
  | skipped
  | errored
deriving DecidableEq

/-- `shutil.copy2(source_file, dest_file)`: raises when the fault oracle
fires for this source (permissions, disk full, ...) or when the source
vanished; otherwise overwrites `dst` with the bytes of `src`. -/
def copy2 (fault : String → Bool) (fs : FS) (src dst : String) :
    Except Unit FS :=
  if fault src then .error ()
  else
    match fs.read src with
    | some c => .ok (fs.write dst c)
    | none => .error ()

/-- The body of the `for file_info in files_to_copy` loop for one artifact:
checks `source_file.exists()`, copies inside `try`, reports the size of the
destination file (`dest_file.stat().st_size`), and converts any exception
into an error report.  Returns the new state, the report line, and the
increment of `success_count`. -/
def process (fault : String → Bool) (fs : FS) (fi : FileInfo) :
    FS × Outcome × Nat :=
  if fs.existsFile fi.source then
    match copy2 fault fs fi.source fi.dest with
    | .ok fs' => (fs', .copied (((fs'.read fi.dest).getD []).length), 1)
    | .error _ => (fs, .errored, 0)
  else
    (fs, .skipped, 0)

/-- The artifact loop of the standalone script: processes the list in order,
collecting the report lines and accumulating `success_count` (which starts
at 0). -/
def runLoop (fault : String → Bool) (fs : FS) :
    List FileInfo → FS × List Outcome × Nat
  | [] => (fs, [], 0)
  | fi :: rest =>
    let s1 := process fault fs fi
    let s2 := runLoop fault s1.1 rest
    (s2.1, s1.2.1 :: s2.2.1, s1.2.2 + s2.2.2)

/-- The build directory of the standalone script:
`project_dir / ".pio" / "build" / "esp32doit-devkit-v1"`. -/
def build_dir_standalone (project_dir : String) : String :=
  pathJoin (pathJoin (pathJoin project_dir ".pio") "build") "esp32doit-devkit-v1"

/-- `project_dir / "firmware"`, the destination directory. -/
def firmware_dir_of (project_dir : String) : String :=
  pathJoin project_dir "firmware"

/-- The result of one standalone run: the final filesystem, the per-artifact
report lines, and the returned `success_count`. -/
structure RunResult where
  fs : FS
  outcomes : List Outcome
  success_count : Nat
deriving DecidableEq

/-- `copy_firmware_files()` of `scripts/copy_firmware.py`: resolves the build
and firmware directories from the project root, ensures the firmware
directory exists, runs the artifact loop, and returns `success_count`. -/
def copy_firmware_files (fault : String → Bool) (project_dir : String)
    (fs : FS) : Except RunError RunResult :=
  let build_dir := build_dir_standalone project_dir
  let firmware_dir := firmware_dir_of project_dir
  match mkdir_exist_ok fs project_dir firmware_dir with
  | .error e => .error e
  | .ok fs1 =>
    let s := runLoop fault fs1 (files_to_copy build_dir firmware_dir)
    .ok { fs := s.1, outcomes := s.2.1, success_count := s.2.2 }

/-- The `__main__` block: `sys.exit(0 if success_count > 0 else 1)`.  The
value is the process exit status; a `ConfigurationError` propagates as an
uncaught exception instead. -/
def exit_code (fault : String → Bool) (project_dir : String) (fs : FS) :
    Except RunError Nat :=
  (copy_firmware_files fault project_dir fs).map
    (fun r => if r.success_count > 0 then 0 else 1)

/-- The `files_to_copy` list of the post-build variant
(`firmware/copy_firmware.py`); textually the same construction. -/
def files_to_copy_post (build_dir firmware_dir : String) : List FileInfo :=
  [ { source := pathJoin build_dir "firmware.bin"
    , dest := pathJoin firmware_dir "firmware.bin"
    , name := "Main firmware" }
  , { source := pathJoin build_dir "spiffs.bin"
    , dest := pathJoin firmware_dir "spiffs.bin"
    , name := "SPIFFS filesystem" } ]

/-- The loop body of the post-build variant; it is the same code as in the
standalone script. -/
def processPost (fault : String → Bool) (fs : FS) (fi : FileInfo) :
    FS × Outcome × Nat :=
  if fs.existsFile fi.source then
    match copy2 fault fs fi.source fi.dest with
    | .ok fs' => (fs', .copied (((fs'.read fi.dest).getD []).length), 1)
    | .error _ => (fs, .errored, 0)
  else
    (fs, .skipped, 0)

/-- The artifact loop of the post-build variant. -/
def runLoopPost (fault : String → Bool) (fs : FS) :
    List FileInfo → FS × List Outcome × Nat
  | [] => (fs, [], 0)
  | fi :: rest =>
    let s1 := processPost fault fs fi
    let s2 := runLoopPost fault s1.1 rest
    (s2.1, s1.2.1 :: s2.2.1, s1.2.2 + s2.2.2)

/-- The build directory of the post-build variant:
`project_dir / ".pio" / "build" / env["PIOENV"]`. -/
def build_dir_post (project_dir pioenv : String) : String :=
  pathJoin (pathJoin (pathJoin project_dir ".pio") "build") pioenv

/-- The result of one post-build run.  `success_count` is the final value of
the local variable (it is only printed); `retVal` is the Python return value
of the function, which has no `return` statement and so returns `None`. -/
structure PostRunResult where
  fs : FS
  outcomes : List Outcome
  success_count : Nat
  retVal : Option Nat
deriving DecidableEq

/-- `copy_firmware_files(source, target, env)` of `firmware/copy_firmware.py`:
same directory resolution (with `env["PIOENV"]` in place of the hard-coded
environment name) and the same loop, but no `return` statement. -/
def copy_firmware_files_post (fault : String → Bool)
    (project_dir pioenv : String) (fs : FS) :
    Except RunError PostRunResult :=
  let build_dir := build_dir_post project_dir pioenv
  let firmware_dir := firmware_dir_of project_dir
  match mkdir_exist_ok fs project_dir firmware_dir with
  | .error e => .error e
  | .ok fs1 =>
    let s := runLoopPost fault fs1 (files_to_copy_post build_dir firmware_dir)
    .ok { fs := s.1, outcomes := s.2.1, success_count := s.2.2, retVal := none }

/-- Source path of the main firmware image in the standalone script. -/
def src_fw (project_dir : String) : String :=
  pathJoin (build_dir_standalone project_dir) "firmware.bin"

/-- Source path of the SPIFFS image in the standalone script. -/
def src_spiffs (project_dir : String) : String :=
  pathJoin (build_dir_standalone project_dir) "spiffs.bin"

/-- Destination path of the main firmware image. -/
def dst_fw (project_dir : String) : String :=
  pathJoin (firmware_dir_of project_dir) "firmware.bin"

/-- Destination path of the SPIFFS image. -/
def dst_spiffs (project_dir : String) : String :=
  pathJoin (firmware_dir_of project_dir) "spiffs.bin"

/-- Source path of the main firmware image in the post-build variant. -/
def src_fw_post (project_dir pioenv : String) : String :=
  pathJoin (build_dir_post project_dir pioenv) "firmware.bin"

/-- Source path of the SPIFFS image in the post-build variant. -/
def src_spiffs_post (project_dir pioenv : String) : String :=
  pathJoin (build_dir_post project_dir pioenv) "spiffs.bin"

/-- Number of `copied` report lines in a report. -/
def countCopied : List Outcome → Nat
  | [] => 0
  | .copied _ :: rest => countCopied rest + 1
  | .skipped :: rest => countCopied rest
  | .errored :: rest => countCopied rest

/-- The first entry of the standalone `files_to_copy` list. -/
def fiFw (project_dir : String) : FileInfo :=
  { source := src_fw project_dir, dest := dst_fw project_dir
  , name := "Main firmware" }

/-- The second entry of the standalone `files_to_copy` list. -/
def fiSp (project_dir : String) : FileInfo :=
  { source := src_spiffs project_dir, dest := dst_spiffs project_dir
  , name := "SPIFFS filesystem" }

/-- The first entry of the post-build `files_to_copy` list. -/
def fiFwPost (project_dir pioenv : String) : FileInfo :=
  { source := src_fw_post project_dir pioenv, dest := dst_fw project_dir
  , name := "Main firmware" }

/-- The second entry of the post-build `files_to_copy` list. -/
def fiSpPost (project_dir pioenv : String) : FileInfo :=
  { source := src_spiffs_post project_dir pioenv
  , dest := dst_spiffs project_dir
  , name := "SPIFFS filesystem" }

/-! ### Basic lemmas about the filesystem model -/

theorem FS.existsFile_eq_read (fs : FS) (p : String) :
    fs.existsFile p = (fs.read p).isSome := rfl

theorem FS.dirs_write (fs : FS) (p : String) (c : Bytes) :
    (fs.write p c).dirs = fs.dirs := rfl

theorem lookup_filter_ne (p q : String) (l : List (String × Bytes)) (h : q ≠ p) :
    (l.filter (fun e => !(e.1 == p))).lookup q = l.lookup q := by
  induction l with
  | nil => rfl
  | cons e es ih =>
    obtain ⟨k, v⟩ := e
    by_cases he : k = p
    · subst he
      simp [List.filter_cons, List.lookup, beq_eq_false_iff_ne.mpr h, ih]
    · by_cases hq : q = k
      · subst hq
        simp [List.filter_cons, List.lookup, beq_eq_false_iff_ne.mpr he]
      · simp [List.filter_cons, List.lookup, beq_eq_false_iff_ne.mpr he,
          beq_eq_false_iff_ne.mpr hq, ih]

theorem FS.read_write_self (fs : FS) (p : String) (c : Bytes) :
    (fs.write p c).read p = some c := by
  simp [FS.read, FS.write, List.lookup]

theorem FS.read_write_ne (fs : FS) (p q : String) (c : Bytes) (h : q ≠ p) :
    (fs.write p c).read q = fs.read q := by
  show List.lookup q ((p, c) :: fs.files.filter (fun e => !(e.1 == p))) =
    fs.files.lookup q
  simp [List.lookup, beq_eq_false_iff_ne.mpr h]
  exact lookup_filter_ne p q fs.files h

/-! ### Lemmas about directory creation -/

theorem mkdir_exist_ok_spec (fs : FS) (p d : String) (fs' : FS)
    (h : mkdir_exist_ok fs p d = .ok fs') :
    fs'.files = fs.files ∧ d ∈ fs'.dirs ∧
      (fs'.dirs = fs.dirs ∨ fs'.dirs = d :: fs.dirs) := by
  by_cases h1 : d ∈ fs.dirs
  · simp [mkdir_exist_ok, h1] at h
    subst h
    exact ⟨rfl, h1, Or.inl rfl⟩
  · by_cases h2 : p ∈ fs.dirs
    · simp [mkdir_exist_ok, h1, h2] at h
      subst h
      exact ⟨rfl, List.mem_cons_self d fs.dirs, Or.inr rfl⟩
    · simp [mkdir_exist_ok, h1, h2] at h

theorem mkdir_exist_ok_ok (fs : FS) (p d : String)
    (h : d ∈ fs.dirs ∨ p ∈ fs.dirs) :
    ∃ fs', mkdir_exist_ok fs p d = .ok fs' := by
  by_cases h1 : d ∈ fs.dirs
  · exact ⟨fs, by simp [mkdir_exist_ok, h1]⟩
  · rcases h with h | h2
    · exact absurd h h1
    · exact ⟨{ fs with dirs := d :: fs.dirs },
        by simp [mkdir_exist_ok, h1, h2]⟩

theorem mkdir_exist_ok_fails (fs : FS) (p d : String)
    (h1 : d ∉ fs.dirs) (h2 : p ∉ fs.dirs) :
    mkdir_exist_ok fs p d = .error .ConfigurationError := by
  simp [mkdir_exist_ok, h1, h2]

/-! ### Lemmas about one artifact step -/

theorem process_copied (fault : String → Bool) (fs : FS) (fi : FileInfo)
    (c : Bytes) (hs : fs.read fi.source = some c)
    (hf : fault fi.source = false) :
    process fault fs fi = (fs.write fi.dest c, .copied c.length, 1) := by
  simp [process, FS.existsFile_eq_read, hs, copy2, hf, FS.read_write_self]

theorem process_skipped (fault : String → Bool) (fs : FS) (fi : FileInfo)
    (hs : fs.read fi.source = none) :
    process fault fs fi = (fs, .skipped, 0) := by
  simp [process, FS.existsFile_eq_read, hs]

theorem process_errored (fault : String → Bool) (fs : FS) (fi : FileInfo)
    (c : Bytes) (hs : fs.read fi.source = some c)
    (hf : fault fi.source = true) :
    process fault fs fi = (fs, .errored, 0) := by
  simp [process, FS.existsFile_eq_read, hs, copy2, hf]

theorem process_dirs (fault : String → Bool) (fs : FS) (fi : FileInfo) :
    (process fault fs fi).1.dirs = fs.dirs := by
  unfold process
  by_cases hs : fs.existsFile fi.source
  · simp [hs]
    unfold copy2
    by_cases hf : fault fi.source
    · simp [hf]
    · simp [hf]
      cases h : fs.read fi.source <;> simp [FS.dirs_write]
  · simp [hs]

theorem process_read_other (fault : String → Bool) (fs : FS) (fi : FileInfo)
    (p : String) (h : p ≠ fi.dest) :
    (process fault fs fi).1.read p = fs.read p := by
  unfold process
  by_cases hs : fs.existsFile fi.source
  · simp [hs]
    unfold copy2
    by_cases hf : fault fi.source
    · simp [hf]
    · simp [hf]
      cases hr : fs.read fi.source with
      | none => simp
      | some c => simp [FS.read_write_ne _ _ _ _ h]
  · simp [hs]

theorem process_count_le_one (fault : String → Bool) (fs : FS)
    (fi : FileInfo) : (process fault fs fi).2.2 ≤ 1 := by
  unfold process
  by_cases hs : fs.existsFile fi.source
  · simp [hs]
    cases copy2 fault fs fi.source fi.dest <;> simp
  · simp [hs]

theorem process_count_eq_countCopied (fault : String → Bool) (fs : FS)
    (fi : FileInfo) :
    (process fault fs fi).2.2 = countCopied [(process fault fs fi).2.1] := by
  unfold process
  by_cases hs : fs.existsFile fi.source
  · simp only [hs, if_true]
    cases copy2 fault fs fi.source fi.dest <;> simp [countCopied]
  · simp [hs, countCopied]

/-! ### Lemmas about the artifact loop -/

theorem runLoop_cons (fault : String → Bool) (fs : FS) (fi : FileInfo)
    (rest : List FileInfo) :
    runLoop fault fs (fi :: rest) =
      ((runLoop fault (process fault fs fi).1 rest).1,
       (process fault fs fi).2.1 ::
         (runLoop fault (process fault fs fi).1 rest).2.1,
       (process fault fs fi).2.2 +
         (runLoop fault (process fault fs fi).1 rest).2.2) := rfl

theorem runLoop_append (fault : String → Bool) (fs : FS)
    (xs ys : List FileInfo) :
    runLoop fault fs (xs ++ ys) =
      ((runLoop fault (runLoop fault fs xs).1 ys).1,
       (runLoop fault fs xs).2.1 ++
         (runLoop fault (runLoop fault fs xs).1 ys).2.1,
       (runLoop fault fs xs).2.2 +
         (runLoop fault (runLoop fault fs xs).1 ys).2.2) := by
  induction xs generalizing fs with
  | nil => simp [runLoop]
  | cons fi rest ih =>
    simp [List.cons_append, runLoop_cons, ih, Nat.add_assoc]

theorem runLoop_length_outcomes (fault : String → Bool) (fs : FS)
    (l : List FileInfo) : (runLoop fault fs l).2.1.length = l.length := by
  induction l generalizing fs with
  | nil => rfl
  | cons fi rest ih => simp [runLoop_cons, ih]

theorem runLoop_count_le (fault : String → Bool) (fs : FS)
    (l : List FileInfo) : (runLoop fault fs l).2.2 ≤ l.length := by
  induction l generalizing fs with
  | nil => simp [runLoop]
  | cons fi rest ih =>
    have h1 := process_count_le_one fault fs fi
    have h2 := ih (process fault fs fi).1
    rw [runLoop_cons]
    simp only [List.length_cons]
    omega

theorem runLoop_dirs (fault : String → Bool) (fs : FS)
    (l : List FileInfo) : (runLoop fault fs l).1.dirs = fs.dirs := by
  induction l generalizing fs with
  | nil => rfl
  | cons fi rest ih =>
    rw [runLoop_cons]
    simp [ih, process_dirs]

theorem runLoop_count_copied (fault : String → Bool) (fs : FS)
    (l : List FileInfo) :
    (runLoop fault fs l).2.2 = countCopied (runLoop fault fs l).2.1 := by
  induction l generalizing fs with
  | nil => rfl
  | cons fi rest ih =>
    rw [runLoop_cons]
    show (process fault fs fi).2.2 + _ =
      countCopied ((process fault fs fi).2.1 :: _)
    unfold process
    by_cases hs : fs.existsFile fi.source
    · simp only [hs, if_true]
      cases copy2 fault fs fi.source fi.dest with
      | ok fs' => simp [countCopied, ih, Nat.add_comm]
      | error e => simp [countCopied, ih]
    · simp [hs, countCopied, ih]

theorem process_outcome_congr (fault fault' : String → Bool) (fs fs' : FS)
    (fi : FileInfo) (h1 : fs.read fi.source = fs'.read fi.source)
    (h2 : fault fi.source = fault' fi.source) :
    (process fault fs fi).2 = (process fault' fs' fi).2 := by
  unfold process
  rw [FS.existsFile_eq_read, FS.existsFile_eq_read, ← h1]
  by_cases hs : (fs.read fi.source).isSome
  · obtain ⟨c, hc⟩ := Option.isSome_iff_exists.mp hs
    by_cases hf : fault fi.source = true
    · rw [copy2, copy2, ← h2, hf]
      simp [hs]
    · have hf' : fault fi.source = false := by
        cases hq : fault fi.source
        · rfl
        · exact absurd hq hf
      rw [copy2, copy2, ← h2, hf']
      simp [hs, hc, ← h1, FS.read_write_self]
  · simp [hs]

/-! ### Path arithmetic: the four artifact paths are pairwise distinct -/

theorem length_pathJoin (a b : String) :
    (pathJoin a b).length = a.length + b.length + 1 := by
  have h1 : ("/" : String).length = 1 := rfl
  simp [pathJoin, String.length_append, h1]
  omega

theorem length_src_fw_post (P env : String) :
    (src_fw_post P env).length = P.length + env.length + 25 := by
  have h12 : ("firmware.bin" : String).length = 12 := rfl
  have h4 : (".pio" : String).length = 4 := rfl
  have h5 : ("build" : String).length = 5 := rfl
  simp [src_fw_post, build_dir_post, length_pathJoin, h12, h4, h5]
  omega

theorem length_src_spiffs_post (P env : String) :
    (src_spiffs_post P env).length = P.length + env.length + 23 := by
  have h10 : ("spiffs.bin" : String).length = 10 := rfl
  have h4 : (".pio" : String).length = 4 := rfl
  have h5 : ("build" : String).length = 5 := rfl
  simp [src_spiffs_post, build_dir_post, length_pathJoin, h10, h4, h5]
  omega

theorem length_dst_fw (P : String) : (dst_fw P).length = P.length + 22 := by
  have h12 : ("firmware.bin" : String).length = 12 := rfl
  have h8 : ("firmware" : String).length = 8 := rfl
  simp [dst_fw, firmware_dir_of, length_pathJoin, h12, h8]

theorem length_dst_spiffs (P : String) :
    (dst_spiffs P).length = P.length + 20 := by
  have h10 : ("spiffs.bin" : String).length = 10 := rfl
  have h8 : ("firmware" : String).length = 8 := rfl
  simp [dst_spiffs, firmware_dir_of, length_pathJoin, h10, h8]

theorem src_fw_eq_post (P : String) :
    src_fw P = src_fw_post P "esp32doit-devkit-v1" := rfl

theorem src_spiffs_eq_post (P : String) :
    src_spiffs P = src_spiffs_post P "esp32doit-devkit-v1" := rfl

theorem ne_of_length_ne {a b : String} (h : a.length ≠ b.length) : a ≠ b :=
  fun e => h (congrArg String.length e)

theorem src_fw_post_ne_src_spiffs_post (P env : String) :
    src_fw_post P env ≠ src_spiffs_post P env :=
  ne_of_length_ne
    (by rw [length_src_fw_post, length_src_spiffs_post]; omega)

theorem src_fw_post_ne_dst_fw (P env : String) :
    src_fw_post P env ≠ dst_fw P :=
  ne_of_length_ne (by rw [length_src_fw_post, length_dst_fw]; omega)

theorem src_fw_post_ne_dst_spiffs (P env : String) :
    src_fw_post P env ≠ dst_spiffs P :=
  ne_of_length_ne (by rw [length_src_fw_post, length_dst_spiffs]; omega)

theorem src_spiffs_post_ne_dst_fw (P env : String) :
    src_spiffs_post P env ≠ dst_fw P :=
  ne_of_length_ne (by rw [length_src_spiffs_post, length_dst_fw]; omega)

theorem src_spiffs_post_ne_dst_spiffs (P env : String) :
    src_spiffs_post P env ≠ dst_spiffs P :=
  ne_of_length_ne (by rw [length_src_spiffs_post, length_dst_spiffs]; omega)

theorem dst_fw_ne_dst_spiffs (P : String) : dst_fw P ≠ dst_spiffs P :=
  ne_of_length_ne (by rw [length_dst_fw, length_dst_spiffs]; omega)

theorem src_fw_ne_src_spiffs (P : String) : src_fw P ≠ src_spiffs P := by
  rw [src_fw_eq_post, src_spiffs_eq_post]
  exact src_fw_post_ne_src_spiffs_post P _

theorem src_fw_ne_dst_fw (P : String) : src_fw P ≠ dst_fw P := by
  rw [src_fw_eq_post]
  exact src_fw_post_ne_dst_fw P _

theorem src_fw_ne_dst_spiffs (P : String) : src_fw P ≠ dst_spiffs P := by
  rw [src_fw_eq_post]
  exact src_fw_post_ne_dst_spiffs P _

theorem src_spiffs_ne_dst_fw (P : String) : src_spiffs P ≠ dst_fw P := by
  rw [src_spiffs_eq_post]
  exact src_spiffs_post_ne_dst_fw P _

theorem src_spiffs_ne_dst_spiffs (P : String) :
    src_spiffs P ≠ dst_spiffs P := by
  rw [src_spiffs_eq_post]
  exact src_spiffs_post_ne_dst_spiffs P _

/-! ### Characterizations of whole runs -/

theorem mkdir_exist_ok_of_mem (fs : FS) (p d : String) (h : d ∈ fs.dirs) :
    mkdir_exist_ok fs p d = .ok fs := by
  simp [mkdir_exist_ok, h]

theorem processPost_eq_process (fault : String → Bool) (fs : FS)
    (fi : FileInfo) : processPost fault fs fi = process fault fs fi := rfl

theorem runLoopPost_eq_runLoop (fault : String → Bool) (fs : FS)
    (l : List FileInfo) : runLoopPost fault fs l = runLoop fault fs l := by
  induction l generalizing fs with
  | nil => rfl
  | cons fi rest ih =>
    simp [runLoopPost, runLoop, processPost_eq_process, ih]

theorem files_to_copy_standalone (P : String) :
    files_to_copy (build_dir_standalone P) (firmware_dir_of P) =
      [fiFw P, fiSp P] := rfl

theorem files_to_copy_post_entries (P env : String) :
    files_to_copy_post (build_dir_post P env) (firmware_dir_of P) =
      [fiFwPost P env, fiSpPost P env] := rfl

theorem copy_firmware_files_ok (fault : String → Bool) (P : String)
    (fs fs1 : FS)
    (hmk : mkdir_exist_ok fs P (firmware_dir_of P) = .ok fs1) :
    copy_firmware_files fault P fs = .ok
      { fs := (runLoop fault fs1 [fiFw P, fiSp P]).1
      , outcomes := (runLoop fault fs1 [fiFw P, fiSp P]).2.1
      , success_count := (runLoop fault fs1 [fiFw P, fiSp P]).2.2 } := by
  simp only [copy_firmware_files]
  rw [hmk, files_to_copy_standalone]

theorem copy_firmware_files_post_ok (fault : String → Bool)
    (P env : String) (fs fs1 : FS)
    (hmk : mkdir_exist_ok fs P (firmware_dir_of P) = .ok fs1) :
    copy_firmware_files_post fault P env fs = .ok
      { fs := (runLoop fault fs1 [fiFwPost P env, fiSpPost P env]).1
      , outcomes := (runLoop fault fs1 [fiFwPost P env, fiSpPost P env]).2.1
      , success_count :=
          (runLoop fault fs1 [fiFwPost P env, fiSpPost P env]).2.2
      , retVal := none } := by
  simp only [copy_firmware_files_post]
  rw [hmk]
  simp only [runLoopPost_eq_runLoop, files_to_copy_post_entries]

theorem run_both_ok (fault : String → Bool) (P : String) (fs fs1 : FS)
    (c1 c2 : Bytes)
    (hmk : mkdir_exist_ok fs P (firmware_dir_of P) = .ok fs1)
    (h1 : fs1.read (src_fw P) = some c1)
    (h2 : fs1.read (src_spiffs P) = some c2)
    (hf1 : fault (src_fw P) = false)
    (hf2 : fault (src_spiffs P) = false) :
    copy_firmware_files fault P fs = .ok
      { fs := (fs1.write (dst_fw P) c1).write (dst_spiffs P) c2
      , outcomes := [.copied c1.length, .copied c2.length]
      , success_count := 2 } := by
  rw [copy_firmware_files_ok fault P fs fs1 hmk]
  have hp1 : process fault fs1 (fiFw P) =
      (fs1.write (dst_fw P) c1, .copied c1.length, 1) :=
    process_copied fault fs1 (fiFw P) c1 h1 hf1
  have h2' : (fs1.write (dst_fw P) c1).read (src_spiffs P) = some c2 := by
    rw [FS.read_write_ne _ _ _ _ (src_spiffs_ne_dst_fw P)]
    exact h2
  have hp2 : process fault (fs1.write (dst_fw P) c1) (fiSp P) =
      ((fs1.write (dst_fw P) c1).write (dst_spiffs P) c2,
        .copied c2.length, 1) :=
    process_copied fault _ (fiSp P) c2 h2' hf2
  simp [runLoop, hp1, hp2]

theorem run_fw_only_ok (fault : String → Bool) (P : String) (fs fs1 : FS)
    (c : Bytes)
    (hmk : mkdir_exist_ok fs P (firmware_dir_of P) = .ok fs1)
    (h1 : fs1.read (src_fw P) = some c)
    (h2 : fs1.read (src_spiffs P) = none)
    (hf1 : fault (src_fw P) = false) :
    copy_firmware_files fault P fs = .ok
      { fs := fs1.write (dst_fw P) c
      , outcomes := [.copied c.length, .skipped]
      , success_count := 1 } := by
  rw [copy_firmware_files_ok fault P fs fs1 hmk]
  have hp1 : process fault fs1 (fiFw P) =
      (fs1.write (dst_fw P) c, .copied c.length, 1) :=
    process_copied fault fs1 (fiFw P) c h1 hf1
  have h2' : (fs1.write (dst_fw P) c).read (src_spiffs P) = none := by
    rw [FS.read_write_ne _ _ _ _ (src_spiffs_ne_dst_fw P)]
    exact h2
  have hp2 : process fault (fs1.write (dst_fw P) c) (fiSp P) =
      (fs1.write (dst_fw P) c, .skipped, 0) :=
    process_skipped fault _ (fiSp P) h2'
  simp [runLoop, hp1, hp2]

theorem run_spiffs_only_ok (fault : String → Bool) (P : String)
    (fs fs1 : FS) (c : Bytes)
    (hmk : mkdir_exist_ok fs P (firmware_dir_of P) = .ok fs1)
    (h1 : fs1.read (src_fw P) = none)
    (h2 : fs1.read (src_spiffs P) = some c)
    (hf2 : fault (src_spiffs P) = false) :
    copy_firmware_files fault P fs = .ok
      { fs := fs1.write (dst_spiffs P) c
      , outcomes := [.skipped, .copied c.length]
      , success_count := 1 } := by
  rw [copy_firmware_files_ok fault P fs fs1 hmk]
  have hp1 : process fault fs1 (fiFw P) = (fs1, .skipped, 0) :=
    process_skipped fault fs1 (fiFw P) h1
  have hp2 : process fault fs1 (fiSp P) =
      (fs1.write (dst_spiffs P) c, .copied c.length, 1) :=
    process_copied fault fs1 (fiSp P) c h2 hf2
  simp [runLoop, hp1, hp2]

theorem run_none_ok (fault : String → Bool) (P : String) (fs fs1 : FS)
    (hmk : mkdir_exist_ok fs P (firmware_dir_of P) = .ok fs1)
    (h1 : fs1.read (src_fw P) = none)
    (h2 : fs1.read (src_spiffs P) = none) :
    copy_firmware_files fault P fs = .ok
      { fs := fs1, outcomes := [.skipped, .skipped]
      , success_count := 0 } := by
  rw [copy_firmware_files_ok fault P fs fs1 hmk]
  have hp1 : process fault fs1 (fiFw P) = (fs1, .skipped, 0) :=
    process_skipped fault fs1 (fiFw P) h1
  have hp2 : process fault fs1 (fiSp P) = (fs1, .skipped, 0) :=
    process_skipped fault fs1 (fiSp P) h2
  simp [runLoop, hp1, hp2]

theorem mkdir_read_eq (fs : FS) (p d : String) (fs' : FS)
    (hmk : mkdir_exist_ok fs p d = .ok fs') (q : String) :
    fs'.read q = fs.read q := by
  obtain ⟨hfiles, -, -⟩ := mkdir_exist_ok_spec fs p d fs' hmk
  show fs'.files.lookup q = fs.files.lookup q
  rw [hfiles]

theorem FS.read_write_absorb (fs : FS) (p : String) (c : Bytes)
    (q : String) (h : fs.read p = some c) :
    (fs.write p c).read q = fs.read q := by
  by_cases hq : q = p
  · subst hq
    rw [FS.read_write_self, h]
  · rw [FS.read_write_ne _ _ _ _ hq]

/-! ## The claims -/

/-- C1: for every run in which both configured source files
(`firmware.bin` and `spiffs.bin` in the build directory) exist and are
readable (no copy fault fires for them), `copy_firmware_files` copies both
to the destination directory: both destination files exist with contents —
hence byte length — identical to their sources, and the returned success
count equals 2. -/
theorem C1_both_sources_copied (fault : String → Bool) (P : String)
    (fs : FS) (c1 c2 : Bytes)
    (hdir : firmware_dir_of P ∈ fs.dirs ∨ P ∈ fs.dirs)
    (h1 : fs.read (src_fw P) = some c1)
    (h2 : fs.read (src_spiffs P) = some c2)
    (hf1 : fault (src_fw P) = false)
    (hf2 : fault (src_spiffs P) = false) :
    ∃ r, copy_firmware_files fault P fs = .ok r ∧
      r.fs.existsFile (dst_fw P) = true ∧
      r.fs.existsFile (dst_spiffs P) = true ∧
      r.fs.read (dst_fw P) = some c1 ∧
      r.fs.read (dst_spiffs P) = some c2 ∧
      ((r.fs.read (dst_fw P)).getD []).length = c1.length ∧
      ((r.fs.read (dst_spiffs P)).getD []).length = c2.length ∧
      r.success_count = 2 := by
  obtain ⟨fs1, hmk⟩ := mkdir_exist_ok_ok fs P (firmware_dir_of P) hdir
  have h1' : fs1.read (src_fw P) = some c1 := by
    rw [mkdir_read_eq fs P _ fs1 hmk]
    exact h1
  have h2' : fs1.read (src_spiffs P) = some c2 := by
    rw [mkdir_read_eq fs P _ fs1 hmk]
    exact h2
  refine ⟨_, run_both_ok fault P fs fs1 c1 c2 hmk h1' h2' hf1 hf2, ?_⟩
  have hd1 : ((fs1.write (dst_fw P) c1).write (dst_spiffs P) c2).read
      (dst_fw P) = some c1 := by
    rw [FS.read_write_ne _ _ _ _ (dst_fw_ne_dst_spiffs P),
      FS.read_write_self]
  have hd2 : ((fs1.write (dst_fw P) c1).write (dst_spiffs P) c2).read
      (dst_spiffs P) = some c2 := FS.read_write_self _ _ _
  simp [FS.existsFile_eq_read, hd1, hd2]

/-- Witness for C1: a concrete filesystem holding both sources. -/
theorem C1_witness :
    ∃ r, copy_firmware_files (fun _ => false) "p"
        ⟨["p"], [(src_fw "p", [0, 1, 2]), (src_spiffs "p", [3, 4])]⟩ =
        .ok r ∧
      r.fs.existsFile (dst_fw "p") = true ∧
      r.fs.existsFile (dst_spiffs "p") = true ∧
      r.fs.read (dst_fw "p") = some [0, 1, 2] ∧
      r.fs.read (dst_spiffs "p") = some [3, 4] ∧
      ((r.fs.read (dst_fw "p")).getD []).length = ([0, 1, 2] : Bytes).length ∧
      ((r.fs.read (dst_spiffs "p")).getD []).length = ([3, 4] : Bytes).length ∧
      r.success_count = 2 :=
  C1_both_sources_copied (fun _ => false) "p" _ [0, 1, 2] [3, 4]
    (Or.inr (by decide)) (by decide) (by decide) rfl rfl

/-- C2: run standalone, the process exit status is 0 iff at least one
artifact was copied, and is 1 when zero artifacts were copied, even when
the run itself completed without a hard I/O error. -/
theorem C2_exit_status (fault : String → Bool) (P : String) (fs : FS)
    (r : RunResult) (h : copy_firmware_files fault P fs = .ok r) :
    (exit_code fault P fs = .ok 0 ↔ 1 ≤ r.success_count) ∧
    (r.success_count = 0 → exit_code fault P fs = .ok 1) := by
  unfold exit_code
  rw [h]
  constructor
  · constructor
    · intro h0
      by_contra hlt
      have hz : r.success_count = 0 := by omega
      simp [Except.map, hz] at h0
    · intro hge
      have hpos : r.success_count > 0 := hge
      simp [Except.map, hpos]
  · intro hz
    simp [Except.map, hz]

/-- Witness for C2: with both sources missing the run succeeds with count
0 and the process exits with status 1. -/
theorem C2_witness :
    copy_firmware_files (fun _ => false) "p" ⟨["p"], []⟩ =
      .ok { fs := ⟨[firmware_dir_of "p", "p"], []⟩
          , outcomes := [.skipped, .skipped], success_count := 0 } ∧
    exit_code (fun _ => false) "p" ⟨["p"], []⟩ = .ok 1 := by
  have h : copy_firmware_files (fun _ => false) "p" ⟨["p"], []⟩ =
      .ok { fs := ⟨[firmware_dir_of "p", "p"], []⟩
          , outcomes := [.skipped, .skipped], success_count := 0 } := rfl
  exact ⟨h, (C2_exit_status (fun _ => false) "p" _ _ h).2 rfl⟩

/-- C6: when neither source exists, the run changes no file of the
filesystem at all (the only possible change is the creation of the
destination directory itself), reports two skips, returns success count 0
and exits with the failure status 1. -/
theorem C6_no_sources_no_writes (fault : String → Bool) (P : String)
    (fs : FS)
    (hdir : firmware_dir_of P ∈ fs.dirs ∨ P ∈ fs.dirs)
    (h1 : fs.read (src_fw P) = none)
    (h2 : fs.read (src_spiffs P) = none) :
    ∃ r, copy_firmware_files fault P fs = .ok r ∧
      r.fs.files = fs.files ∧
      (r.fs.dirs = fs.dirs ∨ r.fs.dirs = firmware_dir_of P :: fs.dirs) ∧
      r.outcomes = [.skipped, .skipped] ∧
      r.success_count = 0 ∧
      exit_code fault P fs = .ok 1 := by
  obtain ⟨fs1, hmk⟩ := mkdir_exist_ok_ok fs P (firmware_dir_of P) hdir
  obtain ⟨hfiles, -, hdirs⟩ := mkdir_exist_ok_spec fs P _ fs1 hmk
  have h1' : fs1.read (src_fw P) = none := by
    rw [mkdir_read_eq fs P _ fs1 hmk]
    exact h1
  have h2' : fs1.read (src_spiffs P) = none := by
    rw [mkdir_read_eq fs P _ fs1 hmk]
    exact h2
  have hrun := run_none_ok fault P fs fs1 hmk h1' h2'
  refine ⟨_, hrun, hfiles, hdirs, rfl, rfl, ?_⟩
  unfold exit_code
  rw [hrun]
  rfl

/-- Witness for C6: a filesystem with an unrelated file and no sources. -/
theorem C6_witness :
    ∃ r, copy_firmware_files (fun _ => false) "q"
        ⟨["q"], [("keep.txt", [9])]⟩ = .ok r ∧
      r.fs.files = (⟨["q"], [("keep.txt", [9])]⟩ : FS).files ∧
      (r.fs.dirs = (⟨["q"], [("keep.txt", [9])]⟩ : FS).dirs ∨
        r.fs.dirs = firmware_dir_of "q" ::
          (⟨["q"], [("keep.txt", [9])]⟩ : FS).dirs) ∧
      r.outcomes = [.skipped, .skipped] ∧
      r.success_count = 0 ∧
      exit_code (fun _ => false) "q" ⟨["q"], [("keep.txt", [9])]⟩ =
        .ok 1 :=
  C6_no_sources_no_writes (fun _ => false) "q" _ (Or.inr (by decide))
    (by decide) (by decide)

/-- C9: in every run of the artifact loop the success count starts at 0,
never decreases as further artifacts are processed, grows by at most 1 per
artifact, and is bounded by the length of the configured list, which is 2
for the fixed `files_to_copy` list. -/
theorem C9_success_count_bounds (fault : String → Bool) (fs : FS)
    (bd fd : String) :
    (runLoop fault fs []).2.2 = 0 ∧
    (∀ xs ys : List FileInfo, ∀ fs0 : FS,
      (runLoop fault fs0 xs).2.2 ≤ (runLoop fault fs0 (xs ++ ys)).2.2) ∧
    (∀ xs : List FileInfo, ∀ fi : FileInfo, ∀ fs0 : FS,
      (runLoop fault fs0 (xs ++ [fi])).2.2 ≤
        (runLoop fault fs0 xs).2.2 + 1) ∧
    (∀ fs0 : FS,
      (runLoop fault fs0 (files_to_copy bd fd)).2.2 ≤
        (files_to_copy bd fd).length ∧
      (runLoop fault fs0 (files_to_copy bd fd)).2.2 ≤ 2) := by
  refine ⟨rfl, ?_, ?_, ?_⟩
  · intro xs ys fs0
    rw [runLoop_append]
    simp
  · intro xs fi fs0
    rw [runLoop_append]
    dsimp only
    have h1 : (runLoop fault (runLoop fault fs0 xs).1 [fi]).2.2 ≤ 1 := by
      simpa [runLoop] using
        process_count_le_one fault (runLoop fault fs0 xs).1 fi
    omega
  · intro fs0
    refine ⟨runLoop_count_le fault fs0 _, ?_⟩
    simpa using runLoop_count_le fault fs0 (files_to_copy bd fd)

/-- C10: on the same filesystem and with the same build and destination
directories, the artifact loops of the standalone script and of the
post-build script process the same two artifacts in the same order and
return the same final state, the same per-artifact outcomes and the same
success count. -/
theorem C10_loops_equivalent (fault : String → Bool) (fs : FS)
    (bd fd : String) :
    files_to_copy_post bd fd = files_to_copy bd fd ∧
    runLoopPost fault fs (files_to_copy_post bd fd) =
      runLoop fault fs (files_to_copy bd fd) :=
  ⟨rfl, runLoopPost_eq_runLoop fault fs (files_to_copy bd fd)⟩

/-- C3: per-artifact copy faults are isolated.  For every artifact whose
source exists but whose copy raises, the loop body records the `.errored`
report line for that artifact, leaves the filesystem untouched and adds 0
to the success count (first conjunct, for an arbitrary artifact and
state).  Moreover a run whose first artifact faults this way still
completes normally (the exception is caught and turned into a report
line, never propagated past the loop), both artifacts are processed (two
report lines, the first being `.errored`), the success count equals the
number of `copied` lines — so the faulted artifact is not counted, only
the second artifact can contribute — and the second artifact gets exactly
the same outcome as under any oracle that treats it the same way. -/
theorem C3_fault_isolation (fault fault' : String → Bool)
    (P env : String) (fs : FS) (c : Bytes)
    (hdir : firmware_dir_of P ∈ fs.dirs ∨ P ∈ fs.dirs)
    (h1 : fs.read (src_fw_post P env) = some c)
    (hf : fault (src_fw_post P env) = true)
    (hsp : fault (src_spiffs_post P env) = fault' (src_spiffs_post P env)) :
    (∀ (fs0 : FS) (fi : FileInfo) (c0 : Bytes),
      fs0.read fi.source = some c0 → fault fi.source = true →
      process fault fs0 fi = (fs0, .errored, 0)) ∧
    ∃ r r', copy_firmware_files_post fault P env fs = .ok r ∧
      copy_firmware_files_post fault' P env fs = .ok r' ∧
      r.outcomes.length = 2 ∧ r'.outcomes.length = 2 ∧
      ∃ o1' o2, r.outcomes = [.errored, o2] ∧ r'.outcomes = [o1', o2] ∧
        r.success_count = countCopied r.outcomes ∧
        r'.success_count = countCopied r'.outcomes ∧
        r.success_count = countCopied [o2] := by
  refine ⟨fun fs0 fi c0 hs hfi => process_errored fault fs0 fi c0 hs hfi,
    ?_⟩
  obtain ⟨fs1, hmk⟩ := mkdir_exist_ok_ok fs P (firmware_dir_of P) hdir
  have h1' : fs1.read (src_fw_post P env) = some c := by
    rw [mkdir_read_eq fs P _ fs1 hmk]
    exact h1
  have hp1 : process fault fs1 (fiFwPost P env) = (fs1, .errored, 0) :=
    process_errored fault fs1 (fiFwPost P env) c h1' hf
  refine ⟨_, _, copy_firmware_files_post_ok fault P env fs fs1 hmk,
    copy_firmware_files_post_ok fault' P env fs fs1 hmk, ?_, ?_, ?_⟩
  · simpa using
      runLoop_length_outcomes fault fs1 [fiFwPost P env, fiSpPost P env]
  · simpa using
      runLoop_length_outcomes fault' fs1 [fiFwPost P env, fiSpPost P env]
  · have hne : (fiSpPost P env).source ≠ (fiFwPost P env).dest :=
      src_spiffs_post_ne_dst_fw P env
    have hreads : fs1.read (fiSpPost P env).source =
        (process fault' fs1 (fiFwPost P env)).1.read
          (fiSpPost P env).source :=
      (process_read_other fault' fs1 (fiFwPost P env) _ hne).symm
    have hsnd := process_outcome_congr fault fault' fs1
      (process fault' fs1 (fiFwPost P env)).1 (fiSpPost P env) hreads hsp
    have e1 : (runLoop fault fs1 [fiFwPost P env, fiSpPost P env]).2.1 =
        [.errored, (process fault fs1 (fiSpPost P env)).2.1] := by
      simp [runLoop, hp1]
    have e2 : (runLoop fault' fs1 [fiFwPost P env, fiSpPost P env]).2.1 =
        [(process fault' fs1 (fiFwPost P env)).2.1,
         (process fault' (process fault' fs1 (fiFwPost P env)).1
           (fiSpPost P env)).2.1] := by
      simp [runLoop]
    refine ⟨(process fault' fs1 (fiFwPost P env)).2.1,
      (process fault fs1 (fiSpPost P env)).2.1, e1, ?_,
      runLoop_count_copied fault fs1 _,
      runLoop_count_copied fault' fs1 _, ?_⟩
    · rw [e2, congrArg Prod.fst hsnd]
    · have hc : (runLoop fault fs1 [fiFwPost P env, fiSpPost P env]).2.2 =
          (process fault fs1 (fiSpPost P env)).2.2 := by
        simp [runLoop, hp1]
      rw [hc]
      exact process_count_eq_countCopied fault fs1 (fiSpPost P env)

/-- Witness for C3: the oracle faults exactly the first artifact, whose
source is present; its outcome is `.errored`, it contributes nothing to
the count, and the second artifact gets the same outcome as in the
fault-free run. -/
theorem C3_witness :
    (∀ (fs0 : FS) (fi : FileInfo) (c0 : Bytes),
      fs0.read fi.source = some c0 →
      (fun s => s == src_fw_post "p" "e") fi.source = true →
      process (fun s => s == src_fw_post "p" "e") fs0 fi =
        (fs0, .errored, 0)) ∧
    ∃ r r', copy_firmware_files_post
        (fun s => s == src_fw_post "p" "e") "p" "e"
        ⟨["p"], [(src_fw_post "p" "e", [1]),
          (src_spiffs_post "p" "e", [2, 3])]⟩ = .ok r ∧
      copy_firmware_files_post (fun _ => false) "p" "e"
        ⟨["p"], [(src_fw_post "p" "e", [1]),
          (src_spiffs_post "p" "e", [2, 3])]⟩ = .ok r' ∧
      r.outcomes.length = 2 ∧ r'.outcomes.length = 2 ∧
      ∃ o1' o2, r.outcomes = [.errored, o2] ∧ r'.outcomes = [o1', o2] ∧
        r.success_count = countCopied r.outcomes ∧
        r'.success_count = countCopied r'.outcomes ∧
        r.success_count = countCopied [o2] :=
  C3_fault_isolation (fun s => s == src_fw_post "p" "e") (fun _ => false)
    "p" "e" _ [1] (Or.inr (by decide)) (by decide) (by decide) (by decide)

/-- C7: running the standalone copy twice in succession with unchanged
sources is idempotent: the second run raises no error although the
destination directory and the destination files already exist (directory
creation tolerates the existing directory, copies overwrite), it produces
the same report and success count, and the destination contents after the
second run are identical to those after the first. -/
theorem C7_idempotent (P : String) (fs : FS)
    (hdir : firmware_dir_of P ∈ fs.dirs ∨ P ∈ fs.dirs) :
    ∃ r1 r2,
      copy_firmware_files (fun _ => false) P fs = .ok r1 ∧
      copy_firmware_files (fun _ => false) P r1.fs = .ok r2 ∧
      (∀ q, r2.fs.read q = r1.fs.read q) ∧
      r2.outcomes = r1.outcomes ∧
      r2.success_count = r1.success_count := by
  obtain ⟨fs1, hmk⟩ := mkdir_exist_ok_ok fs P (firmware_dir_of P) hdir
  obtain ⟨-, hd, -⟩ := mkdir_exist_ok_spec fs P _ fs1 hmk
  cases ha1 : fs1.read (src_fw P) with
  | some c1 =>
    cases ha2 : fs1.read (src_spiffs P) with
    | some c2 =>
      have hrun1 := run_both_ok (fun _ => false) P fs fs1 c1 c2 hmk
        ha1 ha2 rfl rfl
      have hmk2 : mkdir_exist_ok
          ((fs1.write (dst_fw P) c1).write (dst_spiffs P) c2) P
          (firmware_dir_of P) =
          .ok ((fs1.write (dst_fw P) c1).write (dst_spiffs P) c2) :=
        mkdir_exist_ok_of_mem _ P _ hd
      have hb1 : ((fs1.write (dst_fw P) c1).write (dst_spiffs P) c2).read
          (src_fw P) = some c1 := by
        rw [FS.read_write_ne _ _ _ _ (src_fw_ne_dst_spiffs P),
          FS.read_write_ne _ _ _ _ (src_fw_ne_dst_fw P)]
        exact ha1
      have hb2 : ((fs1.write (dst_fw P) c1).write (dst_spiffs P) c2).read
          (src_spiffs P) = some c2 := by
        rw [FS.read_write_ne _ _ _ _ (src_spiffs_ne_dst_spiffs P),
          FS.read_write_ne _ _ _ _ (src_spiffs_ne_dst_fw P)]
        exact ha2
      have hrun2 := run_both_ok (fun _ => false) P _ _ c1 c2 hmk2
        hb1 hb2 rfl rfl
      refine ⟨_, _, hrun1, hrun2, ?_, rfl, rfl⟩
      intro q
      have hx1 : ((fs1.write (dst_fw P) c1).write (dst_spiffs P) c2).read
          (dst_fw P) = some c1 := by
        rw [FS.read_write_ne _ _ _ _ (dst_fw_ne_dst_spiffs P),
          FS.read_write_self]
      have hx2 : (((fs1.write (dst_fw P) c1).write (dst_spiffs P)
            c2).write (dst_fw P) c1).read (dst_spiffs P) = some c2 := by
        rw [FS.read_write_ne _ _ _ _
          (Ne.symm (dst_fw_ne_dst_spiffs P)), FS.read_write_self]
      show ((((fs1.write (dst_fw P) c1).write (dst_spiffs P) c2).write
          (dst_fw P) c1).write (dst_spiffs P) c2).read q =
        ((fs1.write (dst_fw P) c1).write (dst_spiffs P) c2).read q
      rw [FS.read_write_absorb _ _ _ _ hx2, FS.read_write_absorb _ _ _ _ hx1]
    | none =>
      have hrun1 := run_fw_only_ok (fun _ => false) P fs fs1 c1 hmk
        ha1 ha2 rfl
      have hmk2 : mkdir_exist_ok (fs1.write (dst_fw P) c1) P
          (firmware_dir_of P) = .ok (fs1.write (dst_fw P) c1) :=
        mkdir_exist_ok_of_mem _ P _ hd
      have hb1 : (fs1.write (dst_fw P) c1).read (src_fw P) = some c1 := by
        rw [FS.read_write_ne _ _ _ _ (src_fw_ne_dst_fw P)]
        exact ha1
      have hb2 : (fs1.write (dst_fw P) c1).read (src_spiffs P) = none := by
        rw [FS.read_write_ne _ _ _ _ (src_spiffs_ne_dst_fw P)]
        exact ha2
      have hrun2 := run_fw_only_ok (fun _ => false) P _ _ c1 hmk2 hb1
        hb2 rfl
      refine ⟨_, _, hrun1, hrun2, ?_, rfl, rfl⟩
      intro q
      have hx1 : (fs1.write (dst_fw P) c1).read (dst_fw P) = some c1 :=
        FS.read_write_self _ _ _
      show ((fs1.write (dst_fw P) c1).write (dst_fw P) c1).read q =
        (fs1.write (dst_fw P) c1).read q
      rw [FS.read_write_absorb _ _ _ _ hx1]
  | none =>
    cases ha2 : fs1.read (src_spiffs P) with
    | some c2 =>
      have hrun1 := run_spiffs_only_ok (fun _ => false) P fs fs1 c2 hmk
        ha1 ha2 rfl
      have hmk2 : mkdir_exist_ok (fs1.write (dst_spiffs P) c2) P
          (firmware_dir_of P) = .ok (fs1.write (dst_spiffs P) c2) :=
        mkdir_exist_ok_of_mem _ P _ hd
      have hb1 : (fs1.write (dst_spiffs P) c2).read (src_fw P) = none := by
        rw [FS.read_write_ne _ _ _ _ (src_fw_ne_dst_spiffs P)]
        exact ha1
      have hb2 : (fs1.write (dst_spiffs P) c2).read (src_spiffs P) =
          some c2 := by
        rw [FS.read_write_ne _ _ _ _ (src_spiffs_ne_dst_spiffs P)]
        exact ha2
      have hrun2 := run_spiffs_only_ok (fun _ => false) P _ _ c2 hmk2
        hb1 hb2 rfl
      refine ⟨_, _, hrun1, hrun2, ?_, rfl, rfl⟩
      intro q
      have hx2 : (fs1.write (dst_spiffs P) c2).read (dst_spiffs P) =
          some c2 := FS.read_write_self _ _ _
      show ((fs1.write (dst_spiffs P) c2).write (dst_spiffs P) c2).read q =
        (fs1.write (dst_spiffs P) c2).read q
      rw [FS.read_write_absorb _ _ _ _ hx2]
    | none =>
      have hrun1 := run_none_ok (fun _ => false) P fs fs1 hmk ha1 ha2
      have hmk2 : mkdir_exist_ok fs1 P (firmware_dir_of P) = .ok fs1 :=
        mkdir_exist_ok_of_mem _ P _ hd
      have hrun2 := run_none_ok (fun _ => false) P fs1 fs1 hmk2 ha1 ha2
      exact ⟨_, _, hrun1, hrun2, fun q => rfl, rfl, rfl⟩

/-- Witness for C7: double run on a concrete filesystem with both sources
present. -/
theorem C7_witness :
    ∃ r1 r2,
      copy_firmware_files (fun _ => false) "p"
        ⟨["p"], [(src_fw "p", [5]), (src_spiffs "p", [6, 7])]⟩ = .ok r1 ∧
      copy_firmware_files (fun _ => false) "p" r1.fs = .ok r2 ∧
      (∀ q, r2.fs.read q = r1.fs.read q) ∧
      r2.outcomes = r1.outcomes ∧
      r2.success_count = r1.success_count :=
  C7_idempotent "p" _ (Or.inr (by decide))

/-- C4 counterexample: a run in which exactly one source
(`firmware.bin`) exists but the other destination file
(`firmware/spiffs.bin`) is left over from an earlier run.  The run
succeeds with count 1, yet the other destination is present afterwards,
against the claim that it is absent. -/
theorem C4_counterexample :
    ((⟨["p"], [(src_fw "p", [7]), (dst_spiffs "p", [9])]⟩ : FS).read
      (src_fw "p")).isSome = true ∧
    ((⟨["p"], [(src_fw "p", [7]), (dst_spiffs "p", [9])]⟩ : FS).read
      (src_spiffs "p")).isSome = false ∧
    ((copy_firmware_files (fun _ => false) "p"
        ⟨["p"], [(src_fw "p", [7]), (dst_spiffs "p", [9])]⟩).toOption.map
      (fun r => (r.success_count,
        r.fs.existsFile (dst_spiffs "p")))) = some (1, true) := by
  refine ⟨by decide, by decide, by decide⟩

/-- C4 as amended: when exactly one source exists (and no copy fault
fires), the missing artifact is recorded as a skip without error, the
present artifact's destination is written, the other destination is
neither created nor modified — in particular it is absent afterwards
whenever it was absent before — the success count equals 1 and the
standalone exit status is 0. -/
theorem C4_exactly_one_source (fault : String → Bool) (P : String)
    (fs : FS)
    (hdir : firmware_dir_of P ∈ fs.dirs ∨ P ∈ fs.dirs)
    (hf1 : fault (src_fw P) = false)
    (hf2 : fault (src_spiffs P) = false) :
    (∀ c : Bytes, fs.read (src_fw P) = some c →
      fs.read (src_spiffs P) = none →
      ∃ r, copy_firmware_files fault P fs = .ok r ∧
        r.outcomes = [.copied c.length, .skipped] ∧
        r.success_count = 1 ∧
        r.fs.read (dst_fw P) = some c ∧
        r.fs.read (dst_spiffs P) = fs.read (dst_spiffs P) ∧
        (fs.read (dst_spiffs P) = none →
          r.fs.existsFile (dst_spiffs P) = false) ∧
        exit_code fault P fs = .ok 0) ∧
    (∀ c : Bytes, fs.read (src_spiffs P) = some c →
      fs.read (src_fw P) = none →
      ∃ r, copy_firmware_files fault P fs = .ok r ∧
        r.outcomes = [.skipped, .copied c.length] ∧
        r.success_count = 1 ∧
        r.fs.read (dst_spiffs P) = some c ∧
        r.fs.read (dst_fw P) = fs.read (dst_fw P) ∧
        (fs.read (dst_fw P) = none →
          r.fs.existsFile (dst_fw P) = false) ∧
        exit_code fault P fs = .ok 0) := by
  obtain ⟨fs1, hmk⟩ := mkdir_exist_ok_ok fs P (firmware_dir_of P) hdir
  constructor
  · intro c hc hn
    have hc' : fs1.read (src_fw P) = some c := by
      rw [mkdir_read_eq fs P _ fs1 hmk]
      exact hc
    have hn' : fs1.read (src_spiffs P) = none := by
      rw [mkdir_read_eq fs P _ fs1 hmk]
      exact hn
    have hrun := run_fw_only_ok fault P fs fs1 c hmk hc' hn' hf1
    have hother : (fs1.write (dst_fw P) c).read (dst_spiffs P) =
        fs.read (dst_spiffs P) := by
      rw [FS.read_write_ne _ _ _ _ (Ne.symm (dst_fw_ne_dst_spiffs P))]
      exact mkdir_read_eq fs P _ fs1 hmk _
    refine ⟨_, hrun, rfl, rfl, FS.read_write_self _ _ _, hother,
      ?_, ?_⟩
    · intro habs
      rw [FS.existsFile_eq_read]
      show ((fs1.write (dst_fw P) c).read (dst_spiffs P)).isSome = false
      rw [hother, habs]
      rfl
    · unfold exit_code
      rw [hrun]
      rfl
  · intro c hc hn
    have hc' : fs1.read (src_spiffs P) = some c := by
      rw [mkdir_read_eq fs P _ fs1 hmk]
      exact hc
    have hn' : fs1.read (src_fw P) = none := by
      rw [mkdir_read_eq fs P _ fs1 hmk]
      exact hn
    have hrun := run_spiffs_only_ok fault P fs fs1 c hmk hn' hc' hf2
    have hother : (fs1.write (dst_spiffs P) c).read (dst_fw P) =
        fs.read (dst_fw P) := by
      rw [FS.read_write_ne _ _ _ _ (dst_fw_ne_dst_spiffs P)]
      exact mkdir_read_eq fs P _ fs1 hmk _
    refine ⟨_, hrun, rfl, rfl, FS.read_write_self _ _ _, hother,
      ?_, ?_⟩
    · intro habs
      rw [FS.existsFile_eq_read]
      show ((fs1.write (dst_spiffs P) c).read (dst_fw P)).isSome = false
      rw [hother, habs]
      rfl
    · unfold exit_code
      rw [hrun]
      rfl

/-- Witness for the amended C4: only `firmware.bin` exists; the run
copies it, skips the SPIFFS image, and exits with status 0. -/
theorem C4_witness :
    ∃ r, copy_firmware_files (fun _ => false) "p"
        ⟨["p"], [(src_fw "p", [1])]⟩ = .ok r ∧
      r.outcomes = [.copied 1, .skipped] ∧
      r.success_count = 1 ∧
      r.fs.read (dst_fw "p") = some [1] ∧
      r.fs.read (dst_spiffs "p") =
        (⟨["p"], [(src_fw "p", [1])]⟩ : FS).read (dst_spiffs "p") ∧
      ((⟨["p"], [(src_fw "p", [1])]⟩ : FS).read (dst_spiffs "p") = none →
        r.fs.existsFile (dst_spiffs "p") = false) ∧
      exit_code (fun _ => false) "p" ⟨["p"], [(src_fw "p", [1])]⟩ =
        .ok 0 :=
  (C4_exactly_one_source (fun _ => false) "p" _ (Or.inr (by decide))
    rfl rfl).1 [1] (by decide) (by decide)

/-- C5 counterexample: the project root exists but the build directory
does not (no build outputs at all).  The run does not abort with a
configuration error: it completes normally, skipping both artifacts. -/
theorem C5_counterexample :
    ((⟨["p"], []⟩ : FS).dirs.contains (build_dir_standalone "p")) =
      false ∧
    (⟨["p"], []⟩ : FS).read (src_fw "p") = none ∧
    (⟨["p"], []⟩ : FS).read (src_spiffs "p") = none ∧
    ((copy_firmware_files (fun _ => false) "p" ⟨["p"], []⟩).toOption.map
      (fun r => (r.outcomes, r.success_count))) =
      some ([.skipped, .skipped], 0) := by
  refine ⟨by decide, by decide, by decide, by decide⟩

/-- C5 as amended: only an unresolvable project root is fatal.  If the
project root directory does not exist (and the destination directory does
not already exist), destination-directory creation fails and the run
aborts with the configuration error before any copy attempt; an absent
build directory (no build outputs) does not abort the run — both
artifacts are skipped and the run completes with success count 0. -/
theorem C5_missing_root_aborts (fault fault2 : String → Bool)
    (P Q : String) (fs fs2 : FS)
    (h1 : firmware_dir_of P ∉ fs.dirs) (h2 : P ∉ fs.dirs)
    (g1 : firmware_dir_of Q ∈ fs2.dirs ∨ Q ∈ fs2.dirs)
    (g2 : fs2.read (src_fw Q) = none)
    (g3 : fs2.read (src_spiffs Q) = none) :
    copy_firmware_files fault P fs = .error .ConfigurationError ∧
    ∃ r, copy_firmware_files fault2 Q fs2 = .ok r ∧
      r.success_count = 0 ∧ r.outcomes = [.skipped, .skipped] := by
  constructor
  · simp only [copy_firmware_files]
    rw [mkdir_exist_ok_fails fs P (firmware_dir_of P) h1 h2]
  · obtain ⟨fs1, hmk⟩ := mkdir_exist_ok_ok fs2 Q (firmware_dir_of Q) g1
    have g2' : fs1.read (src_fw Q) = none := by
      rw [mkdir_read_eq fs2 Q _ fs1 hmk]
      exact g2
    have g3' : fs1.read (src_spiffs Q) = none := by
      rw [mkdir_read_eq fs2 Q _ fs1 hmk]
      exact g3
    exact ⟨_, run_none_ok fault2 Q fs2 fs1 hmk g2' g3', rfl, rfl⟩

/-- Witness for the amended C5: an empty filesystem makes the run abort;
a filesystem with only the project root completes with zero copies. -/
theorem C5_witness :
    copy_firmware_files (fun _ => false) "x" ⟨[], []⟩ =
      .error .ConfigurationError ∧
    ∃ r, copy_firmware_files (fun _ => false) "y" ⟨["y"], []⟩ = .ok r ∧
      r.success_count = 0 ∧ r.outcomes = [.skipped, .skipped] :=
  C5_missing_root_aborts (fun _ => false) (fun _ => false) "x" "y"
    ⟨[], []⟩ ⟨["y"], []⟩ (by decide) (by decide) (Or.inr (by decide))
    (by decide) (by decide)

/-- C8 counterexample: a post-build run that copies both artifacts still
returns `None` — not the success count — because the build-integrated
variant has no `return` statement. -/
theorem C8_counterexample :
    ((copy_firmware_files_post (fun _ => false) "p" "e"
      ⟨["p"], [(src_fw_post "p" "e", [0, 1]),
        (src_spiffs_post "p" "e", [2])]⟩).toOption.map
      (fun r => (r.success_count, r.retVal))) = some (2, none) ∧
    (none : Option Nat) ≠ some 2 := by
  refine ⟨by decide, by decide⟩

/-- C8 as amended: the standalone `copy_firmware_files` returns the
integer count of successfully copied artifacts (the count it returns
equals the number of copied report lines), while the build-integrated
variant returns `None`; its count is only reported, not returned. -/
theorem C8_return_values (fault : String → Bool) (P env : String)
    (fs fs' : FS) (r : RunResult) (r' : PostRunResult)
    (h : copy_firmware_files fault P fs = .ok r)
    (h' : copy_firmware_files_post fault P env fs' = .ok r') :
    r.success_count = countCopied r.outcomes ∧ r'.retVal = none := by
  constructor
  · cases hmk : mkdir_exist_ok fs P (firmware_dir_of P) with
    | error e =>
      have herr : copy_firmware_files fault P fs = .error e := by
        simp only [copy_firmware_files]
        rw [hmk]
      rw [herr] at h
      exact absurd h (by simp)
    | ok fs1 =>
      rw [copy_firmware_files_ok fault P fs fs1 hmk] at h
      injection h with h
      rw [← h]
      exact runLoop_count_copied fault fs1 _
  · cases hmk : mkdir_exist_ok fs' P (firmware_dir_of P) with
    | error e =>
      have herr : copy_firmware_files_post fault P env fs' =
          .error e := by
        simp only [copy_firmware_files_post]
        rw [hmk]
      rw [herr] at h'
      exact absurd h' (by simp)
    | ok fs1 =>
      rw [copy_firmware_files_post_ok fault P env fs' fs1 hmk] at h'
      injection h' with h'
      rw [← h']

/-- Witness for the amended C8 on concrete runs of both variants. -/
theorem C8_witness :
    ({ fs := ⟨[firmware_dir_of "p", "p"], []⟩
     , outcomes := [.skipped, .skipped]
     , success_count := 0 } : RunResult).success_count =
      countCopied
        ({ fs := ⟨[firmware_dir_of "p", "p"], []⟩
         , outcomes := [.skipped, .skipped]
         , success_count := 0 } : RunResult).outcomes ∧
    ({ fs := ⟨[firmware_dir_of "p", "p"], []⟩
     , outcomes := [.skipped, .skipped]
     , success_count := 0, retVal := none } : PostRunResult).retVal =
      none :=
  C8_return_values (fun _ => false) "p" "e" ⟨["p"], []⟩ ⟨["p"], []⟩
    { fs := ⟨[firmware_dir_of "p", "p"], []⟩
    , outcomes := [.skipped, .skipped], success_count := 0 }
    { fs := ⟨[firmware_dir_of "p", "p"], []⟩
    , outcomes := [.skipped, .skipped], success_count := 0
    , retVal := none }
    rfl rfl

end CopyFirmware
